import Mathlib

/-!
Verification of the MuON deserializer core (`src/de.rs`).

The file embeds the deserializer of `de.rs` shallowly: the `Peekable`
definition stream, the `MappingIter` cursor, the `Deserializer` parse
functions and the serde-facing dispatch surface.  Parts of the repository
that `de.rs` uses but whose source is not available (`lines.rs`,
`intparse.rs`, `error.rs`) are modelled from the specification and carry a
doc comment saying so.
-/

/-- Modelled from the spec: error kinds of the missing `error.rs` (spec §7):
malformed line with line number, end of input, expected-boolean,
expected-character, expected-integer and expected-enum.  The `other`
constructor stands for consumer-level (serde custom) failures such as an
unknown record field; it is used only by the concrete record-decoding
harness. -/
inductive Error where
  | failedParse (msg : String)
  | eof
  | expectedBoolean
  | expectedChar
  | expectedInteger
  | expectedEnum
  | other (msg : String)
deriving DecidableEq, Repr

/-- Result type of `de.rs` operations (`crate::error::Result`). -/
abbrev DeResult (α : Type) := Except Error α

/-- Modelled from the spec: the `Define` produced by the missing `lines.rs`
tokenizer (spec §3, §4.1): either a valid definition carrying indentation
depth, source line number, key and raw value text, or a malformed line
carrying an error descriptor and its line number.  Field order follows the
patterns `Define::Valid(_, _, k, v)` and `Define::Invalid(e, ln)` of
`de.rs`. -/
inductive Define where
  | valid (indent : Nat) (ln : Nat) (key : String) (value : String)
  | invalid (err : String) (ln : Nat)
deriving DecidableEq, Repr

/-- State of `std::iter::Peekable` over the definition stream, as used by
`MappingIter` in `de.rs`: an optional buffered lookahead item (where
`some none` records that the underlying iterator was already observed to be
exhausted) together with the remaining items of the underlying iterator
(the lazy `DefIter` expanded to a list, which is sound because it is a pure
forward-only producer). -/
structure Peekable where
  peeked : Option (Option Define)
  iter : List Define
deriving DecidableEq, Repr

/-- `Peekable::peek`: return the lookahead item, filling the buffer from the
underlying iterator when it is empty. -/
def Peekable.peek : Peekable → Option Define × Peekable
  | ⟨some v, it⟩ => (v, ⟨some v, it⟩)
  | ⟨none, []⟩ => (none, ⟨some none, []⟩)
  | ⟨none, d :: ds⟩ => (some d, ⟨some (some d), ds⟩)

/-- `Peekable::next`: consume the buffered item if present, otherwise pull
from the underlying iterator. -/
def Peekable.next : Peekable → Option Define × Peekable
  | ⟨some v, it⟩ => (v, ⟨none, it⟩)
  | ⟨none, []⟩ => (none, ⟨none, []⟩)
  | ⟨none, d :: ds⟩ => (some d, ⟨none, ds⟩)

/-- The observable stream of definitions still to be produced: the buffered
item (if any) followed by the items of the underlying iterator. -/
def Peekable.toStream (p : Peekable) : List Define :=
  (match p.peeked with | some (some d) => [d] | _ => []) ++ p.iter

/-- The definition a peek would currently observe. -/
def Peekable.front (p : Peekable) : Option Define := (p.peek).1

/-- `MappingIter` of `de.rs`: the key/value mapping iterator, a peekable
wrapper over the definition stream. -/
structure MappingIter where
  defs : Peekable
deriving DecidableEq, Repr

/-- The formatted message of `Error::FailedParse(format!("{:?} {}", e, ln))`
in `de.rs`. -/
def failMsg (e : String) (ln : Nat) : String := e ++ " " ++ toString ln

/-- `MappingIter::check_key` of `de.rs`: peek; an invalid definition is a
parse failure, a valid one means a key is available, end of stream means
none is. -/
def MappingIter.check_key (m : MappingIter) : DeResult Bool × MappingIter :=
  match m.defs.peek with
  | (some (.invalid e ln), p) => (.error (.failedParse (failMsg e ln)), ⟨p⟩)
  | (some (.valid _ _ _ _), p) => (.ok true, ⟨p⟩)
  | (none, p) => (.ok false, ⟨p⟩)

/-- `MappingIter::peek_key` of `de.rs`: peek and return the current key
without consuming; `Eof` when no definition remains. -/
def MappingIter.peek_key (m : MappingIter) : DeResult String × MappingIter :=
  match m.defs.peek with
  | (some (.invalid e ln), p) => (.error (.failedParse (failMsg e ln)), ⟨p⟩)
  | (some (.valid _ _ k _), p) => (.ok k, ⟨p⟩)
  | (none, p) => (.error .eof, ⟨p⟩)

/-- `MappingIter::get_value` of `de.rs`: consume the current definition and
return its value text. -/
def MappingIter.get_value (m : MappingIter) : DeResult String × MappingIter :=
  match m.defs.next with
  | (some (.invalid e ln), p) => (.error (.failedParse (failMsg e ln)), ⟨p⟩)
  | (some (.valid _ _ _ v), p) => (.ok v, ⟨p⟩)
  | (none, p) => (.error .eof, ⟨p⟩)

/-- The MuON `Deserializer` of `de.rs`, wrapping a `MappingIter`. -/
structure Deserializer where
  mappings : MappingIter
deriving DecidableEq, Repr

/-- `Deserializer::check_key`: delegate to the mapping iterator. -/
def Deserializer.check_key (d : Deserializer) : DeResult Bool × Deserializer :=
  match d.mappings.check_key with | (r, m) => (r, ⟨m⟩)

/-- `Deserializer::peek_key`: delegate to the mapping iterator. -/
def Deserializer.peek_key (d : Deserializer) : DeResult String × Deserializer :=
  match d.mappings.peek_key with | (r, m) => (r, ⟨m⟩)

/-- `Deserializer::get_value`: delegate to the mapping iterator. -/
def Deserializer.get_value (d : Deserializer) : DeResult String × Deserializer :=
  match d.mappings.get_value with | (r, m) => (r, ⟨m⟩)

/-- `Deserializer::parse_text` of `de.rs`: returns the whole value text of
the consumed definition (the FIXME about lists notwithstanding). -/
def Deserializer.parse_text (d : Deserializer) : DeResult String × Deserializer :=
  d.get_value

/-- Number of UTF-8 bytes of a character list; `str::len()` in Rust is the
UTF-8 byte length of the slice. -/
def utf8Len : List Char → Nat
  | [] => 0
  | c :: cs => c.utf8Size + utf8Len cs

/-- `Deserializer::parse_char` of `de.rs`: take the value text; succeed with
its first character only when `text.len() == 1`, i.e. when the UTF-8 byte
length of the text is exactly one; otherwise `ExpectedChar`. -/
def Deserializer.parse_char (d : Deserializer) : DeResult Char × Deserializer :=
  match d.parse_text with
  | (.error e, d1) => (.error e, d1)
  | (.ok text, d1) =>
    if utf8Len text.data = 1 then
      match text.data.head? with
      | some c => (.ok c, d1)
      | none => (.error .expectedChar, d1)
    else (.error .expectedChar, d1)

/-- `Deserializer::parse_bool` of `de.rs`: the value text must be exactly
`true` or `false`; anything else is `ExpectedBoolean`. -/
def Deserializer.parse_bool (d : Deserializer) : DeResult Bool × Deserializer :=
  match d.get_value with
  | (.error e, d1) => (.error e, d1)
  | (.ok v, d1) =>
    if v = "true" then (.ok true, d1)
    else if v = "false" then (.ok false, d1)
    else (.error .expectedBoolean, d1)

/-- Accumulating decimal digit reader: fails on any non-digit character. -/
def digitsAcc : Nat → List Char → Option Nat
  | n, [] => some n
  | n, c :: cs =>
    if c.isDigit then digitsAcc (n * 10 + (c.toNat - 48)) cs else none

/-- Decimal integer literal: an optional leading minus sign followed by at
least one digit; no other formatting is recognized. -/
def intLit (s : String) : Option Int :=
  match s.data with
  | [] => none
  | c :: cs =>
    if c = '-' then
      match cs with
      | [] => none
      | _ => (digitsAcc 0 cs).map fun n => -(n : Int)
    else (digitsAcc 0 (c :: cs)).map fun n => (n : Int)

/-- Modelled from the spec: `intparse::from_str` of the missing
`intparse.rs` (spec §4.4): parse a decimal integer literal and range-check
it against the requested width and signedness, returning `none` on
malformed text or overflow. -/
def intparse_from_str (signed : Bool) (width : Nat) (s : String) : Option Int :=
  match intLit s with
  | none => none
  | some n =>
    if signed then
      if -(2 ^ (width - 1) : Int) ≤ n ∧ n ≤ 2 ^ (width - 1) - 1 then some n
      else none
    else
      if 0 ≤ n ∧ n ≤ (2 ^ width : Int) - 1 then some n else none

/-- `Deserializer::parse_int::<T>` of `de.rs`, with the target type `T`
rendered as its signedness and bit width: take the value text and hand it
to the integer parser; `ExpectedInteger` when that fails. -/
def Deserializer.parse_int (signed : Bool) (width : Nat) (d : Deserializer) :
    DeResult Int × Deserializer :=
  match d.get_value with
  | (.error e, d1) => (.error e, d1)
  | (.ok v, d1) =>
    match intparse_from_str signed width v with
    | some n => (.ok n, d1)
    | none => (.error .expectedInteger, d1)

/-- Two's-complement narrowing of an integer to 8 bits, the semantics of
the Rust cast `v as i8` applied to an `i16` in `deserialize_i8`. -/
def as_i8 (v : Int) : Int := (v + 128).emod 256 - 128

/-- `deserialize_i8` of `de.rs`: parse as a 16-bit signed integer (the
`From<u8>` workaround), then narrow with `as i8`. -/
def Deserializer.deserialize_i8 (d : Deserializer) : DeResult Int × Deserializer :=
  match d.parse_int true 16 with
  | (.ok v, d1) => (.ok (as_i8 v), d1)
  | (.error e, d1) => (.error e, d1)

/-- `deserialize_i16` of `de.rs`. -/
def Deserializer.deserialize_i16 (d : Deserializer) : DeResult Int × Deserializer :=
  d.parse_int true 16

/-- `deserialize_i32` of `de.rs`. -/
def Deserializer.deserialize_i32 (d : Deserializer) : DeResult Int × Deserializer :=
  d.parse_int true 32

/-- `deserialize_i64` of `de.rs`. -/
def Deserializer.deserialize_i64 (d : Deserializer) : DeResult Int × Deserializer :=
  d.parse_int true 64

/-- `deserialize_u8` of `de.rs`. -/
def Deserializer.deserialize_u8 (d : Deserializer) : DeResult Int × Deserializer :=
  d.parse_int false 8

/-- `deserialize_u16` of `de.rs`. -/
def Deserializer.deserialize_u16 (d : Deserializer) : DeResult Int × Deserializer :=
  d.parse_int false 16

/-- `deserialize_u32` of `de.rs`. -/
def Deserializer.deserialize_u32 (d : Deserializer) : DeResult Int × Deserializer :=
  d.parse_int false 32

/-- `deserialize_u64` of `de.rs`. -/
def Deserializer.deserialize_u64 (d : Deserializer) : DeResult Int × Deserializer :=
  d.parse_int false 64

/-- `deserialize_identifier` of `de.rs`: visit the peeked key (no
consumption). -/
def Deserializer.deserialize_identifier (d : Deserializer) :
    DeResult String × Deserializer :=
  d.peek_key

/-- `deserialize_enum` of `de.rs`: always `Err(Error::ExpectedEnum)`, with
the state untouched and the visitor never invoked (so no value of the
requested type is ever produced). -/
def Deserializer.deserialize_enum (α : Type) (d : Deserializer) :
    Except Error α × Deserializer :=
  (.error .expectedEnum, d)

/-- Outcome of a serde entry point of `de.rs`, distinguishing an ordinary
return of a value, a typed error result, and an unchecked fault (a Rust
panic, which is what the `unimplemented` macro raises). -/
inductive POut (α : Type) where
  | ok (a : α)
  | err (e : Error)
  | fault (msg : String)
deriving DecidableEq, Repr

/-- `deserialize_f32` of `de.rs`: the body is the `unimplemented` macro,
which panics. -/
def Deserializer.deserialize_f32 (_d : Deserializer) : POut Unit :=
  .fault ("not implemented")

/-- `deserialize_f64` of `de.rs`: the body is the `unimplemented` macro,
which panics. -/
def Deserializer.deserialize_f64 (_d : Deserializer) : POut Unit :=
  .fault ("not implemented")

/-- `deserialize_bytes` of `de.rs`: the body is the `unimplemented` macro,
which panics. -/
def Deserializer.deserialize_bytes (_d : Deserializer) : POut Unit :=
  .fault ("not implemented")

/-- `deserialize_byte_buf` of `de.rs`: the body is the `unimplemented`
macro, which panics. -/
def Deserializer.deserialize_byte_buf (_d : Deserializer) : POut Unit :=
  .fault ("not implemented")

/-- `deserialize_any` of `de.rs`: the body is the `unimplemented` macro,
which panics. -/
def Deserializer.deserialize_any (_d : Deserializer) : POut Unit :=
  .fault ("not implemented")

/-- `deserialize_ignored_any` of `de.rs`: delegates to `deserialize_any`. -/
def Deserializer.deserialize_ignored_any (d : Deserializer) : POut Unit :=
  d.deserialize_any

/-- `SeqAccess::next_element_seed` of `de.rs` for an element decoder `f`:
check whether a usable definition exists; if so run the element decoder and
wrap its result in `some`, otherwise end the sequence with `ok none`. -/
def next_element {α : Type} (f : Deserializer → DeResult α × Deserializer)
    (d : Deserializer) : DeResult (Option α) × Deserializer :=
  match d.check_key with
  | (.error e, d1) => (.error e, d1)
  | (.ok true, d1) =>
    match f d1 with
    | (.ok a, d2) => (.ok (some a), d2)
    | (.error e, d2) => (.error e, d2)
  | (.ok false, d1) => (.ok none, d1)

/-- The element-collecting loop of serde's sequence visitor: pull elements
via `next_element` until it yields `none`, collecting them in order.  The
fuel argument only bounds recursion; `decode_seq` supplies enough fuel that
it is never exhausted on terminating runs. -/
def seq_loop {α : Type} (f : Deserializer → DeResult α × Deserializer) :
    Nat → Deserializer → DeResult (List α) × Deserializer
  | 0, d => (.error (.other ("out of fuel")), d)
  | n + 1, d =>
    match next_element f d with
    | (.ok none, d1) => (.ok [], d1)
    | (.ok (some a), d1) =>
      match seq_loop f n d1 with
      | (.ok tl, d2) => (.ok (a :: tl), d2)
      | (.error e, d2) => (.error e, d2)
    | (.error e, d1) => (.error e, d1)

/-- Decoding a sequence (`Vec`) of elements through `deserialize_seq` /
`visit_seq` of `de.rs`. -/
def decode_seq {α : Type} (f : Deserializer → DeResult α × Deserializer)
    (d : Deserializer) : DeResult (List α) × Deserializer :=
  seq_loop f (d.mappings.defs.toStream.length + 1) d

/-- The map-access loop the derived deserializer of the test record `B`
(`flags: Vec<bool>`, `values: Vec<String>`) drives through
`MapAccess::next_key_seed` / `next_value_seed` of `de.rs`: while a key is
available, decode it via `deserialize_identifier` and decode the matching
field's value; unknown fields and a missing field at the end are
consumer-level errors.  Duplicate-field detection is omitted: it is
unreachable on the inputs evaluated here. -/
def decode_B_loop : Nat → Deserializer → Option (List Bool) →
    Option (List String) → DeResult (List Bool × List String) × Deserializer
  | 0, d, _, _ => (.error (.other ("out of fuel")), d)
  | n + 1, d, fl, vs =>
    match d.check_key with
    | (.error e, d1) => (.error e, d1)
    | (.ok false, d1) =>
      match fl, vs with
      | some f, some v => (.ok (f, v), d1)
      | _, _ => (.error (.other ("missing field")), d1)
    | (.ok true, d1) =>
      match d1.deserialize_identifier with
      | (.error e, d2) => (.error e, d2)
      | (.ok k, d2) =>
        if k = "flags" then
          match decode_seq Deserializer.parse_bool d2 with
          | (.ok f, d3) => decode_B_loop n d3 (some f) vs
          | (.error e, d3) => (.error e, d3)
        else if k = "values" then
          match decode_seq Deserializer.parse_text d2 with
          | (.ok v, d3) => decode_B_loop n d3 fl (some v)
          | (.error e, d3) => (.error e, d3)
        else (.error (.other ("unknown field")), d2)

/-- Decoding the two-field record `B` of the end-to-end scenario. -/
def decode_struct_B (d : Deserializer) :
    DeResult (List Bool × List String) × Deserializer :=
  decode_B_loop (d.mappings.defs.toStream.length + 2) d none none

/-- Split a character list into newline-separated segments. -/
def splitNl : List Char → List (List Char)
  | [] => [[]]
  | c :: rest =>
    if c = '\n' then [] :: splitNl rest
    else
      match splitNl rest with
      | [] => [[c]]
      | l :: ls => (c :: l) :: ls

/-- Whitespace recognized by the line trimmer. -/
def isWs (c : Char) : Bool := c = ' ' || c = '\t'

/-- Trim leading and trailing whitespace from a character list. -/
def trimChars (cs : List Char) : List Char :=
  ((cs.dropWhile isWs).reverse.dropWhile isWs).reverse

/-- Split a character list at the first colon, returning the text before
and after it, or `none` when the line has no separator. -/
def breakAtColon : List Char → Option (List Char × List Char)
  | [] => none
  | c :: cs =>
    if c = ':' then some ([], cs)
    else (breakAtColon cs).map fun p => (c :: p.1, p.2)

/-- Modelled from the spec: classification of one logical line by the
missing `lines.rs` tokenizer (spec §4.1): blank lines and lines starting
with the comment marker are skipped; otherwise the line is split at the
first colon into a trimmed key and trimmed value (indent depth is the
count of leading spaces); a line with no separator or an empty key yields
an invalid definition with its line number. -/
def defOfLine (ln : Nat) (cs : List Char) : Option Define :=
  let t := trimChars cs
  if t = [] then none
  else if t.head? = some '#' then none
  else
    match breakAtColon cs with
    | none => some (.invalid ("missing separator") ln)
    | some (bef, aft) =>
      let k := trimChars bef
      if k = [] then some (.invalid ("empty key") ln)
      else
        some (.valid (cs.takeWhile (fun c => c = ' ')).length ln
          (String.mk k) (String.mk (trimChars aft)))

/-- Modelled from the spec: the missing `lines.rs` tokenizer end to end
(spec §4.1): split the input into lines, number them from one, and keep
the definitions. -/
def tokenize (s : String) : List Define :=
  (splitNl s.data).enum.filterMap fun p => defOfLine (p.1 + 1) p.2

/-- A deserializer over a given definition list, as `from_str` builds one
over the tokenizer's output (fresh peekable state, nothing buffered). -/
def mkD (l : List Define) : Deserializer := ⟨⟨⟨none, l⟩⟩⟩

/-- A deserializer whose stream holds one valid definition with the given
value text. -/
def dOf (v : String) : Deserializer := mkD [Define.valid 0 1 ("key") v]

/-- Whether an entry-point outcome is an unchecked fault (a panic). -/
def POut.isFault {α : Type} : POut α → Bool
  | .fault _ => true
  | _ => false

/-- Whether an entry-point outcome is a typed error result. -/
def POut.isTypedError {α : Type} : POut α → Bool
  | .err _ => true
  | _ => false

/-- C1: evaluation of the code at the claim's own inputs.  The claim (and
the repository's own test `struct_b` in `de.rs`) requires that a line of N
whitespace-separated tokens decode as a sequence of N elements; the code's
`parse_text` consumes the whole value text of a definition as one element,
so `key: a b c` decoded as a sequence of text yields the single element
`a b c`, and the scenario-B input fails with an expected-boolean error when
the whole line `false true true false` is consumed as one boolean token. -/
theorem C1_whole_line_consumed_eval :
    (decode_seq Deserializer.parse_text (mkD (tokenize ("key: a b c\n")))).1
      = Except.ok (["a b c"])
    ∧ (decode_struct_B (mkD (tokenize
        ("flags: false true true false\nvalues: Hello World\n")))).1
      = Except.error Error.expectedBoolean :=
  ⟨rfl, rfl⟩

/-- C2 counterexample: decoding the literal `128` — one past the 8-bit
signed maximum — as an 8-bit signed integer does not fail with an
expected-integer error as the claim states: the code parses it as a 16-bit
signed integer and the narrowing cast wraps it to `-128`, which is returned
as a success. -/
theorem C2_i8_one_past_max_wraps :
    (Deserializer.deserialize_i8 (dOf ("128"))).1 = Except.ok (-128)
    ∧ (Deserializer.deserialize_i8 (dOf ("128"))).1
        ≠ Except.error Error.expectedInteger :=
  ⟨rfl, fun h => Except.noConfusion h⟩

/-- C2 amended: the integer boundary law holds for the unsigned widths
8/16/32/64 and the signed widths 16/32/64 (maximum succeeds, one past it
fails with expected-integer); for the 8-bit signed decode the maximum `127`
succeeds, but one past it does not fail: `128` wraps to `-128` and `32767`
wraps to `-1` via the 16-bit parse followed by the narrowing cast, and an
expected-integer failure only occurs past the 16-bit signed boundary. -/
theorem C2_integer_boundaries_amended :
    (Deserializer.deserialize_u8 (dOf ("255"))).1 = Except.ok 255
    ∧ (Deserializer.deserialize_u8 (dOf ("256"))).1
        = Except.error Error.expectedInteger
    ∧ (Deserializer.deserialize_u16 (dOf ("65535"))).1 = Except.ok 65535
    ∧ (Deserializer.deserialize_u16 (dOf ("65536"))).1
        = Except.error Error.expectedInteger
    ∧ (Deserializer.deserialize_u32 (dOf ("4294967295"))).1
        = Except.ok 4294967295
    ∧ (Deserializer.deserialize_u32 (dOf ("4294967296"))).1
        = Except.error Error.expectedInteger
    ∧ (Deserializer.deserialize_u64 (dOf ("18446744073709551615"))).1
        = Except.ok 18446744073709551615
    ∧ (Deserializer.deserialize_u64 (dOf ("18446744073709551616"))).1
        = Except.error Error.expectedInteger
    ∧ (Deserializer.deserialize_i16 (dOf ("32767"))).1 = Except.ok 32767
    ∧ (Deserializer.deserialize_i16 (dOf ("32768"))).1
        = Except.error Error.expectedInteger
    ∧ (Deserializer.deserialize_i32 (dOf ("2147483647"))).1
        = Except.ok 2147483647
    ∧ (Deserializer.deserialize_i32 (dOf ("2147483648"))).1
        = Except.error Error.expectedInteger
    ∧ (Deserializer.deserialize_i64 (dOf ("9223372036854775807"))).1
        = Except.ok 9223372036854775807
    ∧ (Deserializer.deserialize_i64 (dOf ("9223372036854775808"))).1
        = Except.error Error.expectedInteger
    ∧ (Deserializer.deserialize_i8 (dOf ("127"))).1 = Except.ok 127
    ∧ (Deserializer.deserialize_i8 (dOf ("128"))).1 = Except.ok (-128)
    ∧ (Deserializer.deserialize_i8 (dOf ("32767"))).1 = Except.ok (-1)
    ∧ (Deserializer.deserialize_i8 (dOf ("32768"))).1
        = Except.error Error.expectedInteger :=
  ⟨rfl, rfl, rfl, rfl, rfl, rfl, rfl, rfl, rfl, rfl, rfl, rfl, rfl, rfl,
    rfl, rfl, rfl, rfl⟩

/-- C3 counterexample: a value text consisting of exactly one character
that is multi-byte in UTF-8 is rejected with an expected-character error,
because `parse_char` tests the byte length of the text, not its character
count; the claim states that any one-character text (including a multi-byte
character) succeeds. -/
theorem C3_single_multibyte_char_rejected :
    (String.data ("é")).length = 1
    ∧ (Deserializer.parse_char (dOf ("é"))).1 = Except.error Error.expectedChar :=
  ⟨rfl, rfl⟩

/-- C6 counterexample: the 32-bit float decode does not report its failure
as a typed error result — it raises an unchecked fault (the `unimplemented`
macro panics), contradicting the claim that every internal operation
returns a typed failure rather than panicking. -/
theorem C6_f32_faults_not_typed_error :
    POut.isFault ((mkD []).deserialize_f32) = true
    ∧ POut.isTypedError ((mkD []).deserialize_f32) = false :=
  ⟨rfl, rfl⟩

/-- C6 amended: every unimplemented decode shape (32/64-bit floating
point, raw byte buffers, and the fully generic decode-any together with
ignored-any, which delegates to it) fails fast and loudly with an explicit
unimplemented fault — an abort, not a silently returned default or corrupt
value; it is however an unchecked fault (panic), not a typed error
result. -/
theorem C6_unimplemented_shapes_fault (d : Deserializer) :
    d.deserialize_f32 = POut.fault ("not implemented")
    ∧ d.deserialize_f64 = POut.fault ("not implemented")
    ∧ d.deserialize_bytes = POut.fault ("not implemented")
    ∧ d.deserialize_byte_buf = POut.fault ("not implemented")
    ∧ d.deserialize_any = POut.fault ("not implemented")
    ∧ d.deserialize_ignored_any = POut.fault ("not implemented") :=
  ⟨rfl, rfl, rfl, rfl, rfl, rfl⟩

/-- C9: for every deserializer state and every requested value type, the
enum decode fails with the expected-enum error and leaves the definition
stream untouched (it consumes nothing and never produces a value — the
result state is the input state itself). -/
theorem C9_enum_always_fails (α : Type) (d : Deserializer) :
    Deserializer.deserialize_enum α d = (Except.error Error.expectedEnum, d) :=
  rfl

/-- A list of characters occupies one UTF-8 byte exactly when it is a
single character whose UTF-8 encoding is one byte long. -/
theorem utf8Len_one (l : List Char) :
    utf8Len l = 1 ↔ ∃ c, l = [c] ∧ c.utf8Size = 1 := by
  rcases l with _ | ⟨c0, cs⟩
  · simp [utf8Len]
  · rcases cs with _ | ⟨c1, cs1⟩
    · simp [utf8Len]
    · have h0 := Char.utf8Size_pos c0
      have h1 := Char.utf8Size_pos c1
      constructor
      · intro hl
        exfalso
        simp [utf8Len] at hl
        omega
      · rintro ⟨c, hc, _⟩
        simp at hc

/-- When the front of the stream is a valid definition, `get_value`
consumes it and returns its value text. -/
theorem get_value_front (d : Deserializer) (i ln : Nat) (k v : String)
    (h : Peekable.front d.mappings.defs = some (Define.valid i ln k v)) :
    ∃ d1 : Deserializer, d.get_value = (Except.ok v, d1) := by
  obtain ⟨⟨⟨pk, it⟩⟩⟩ := d
  rcases pk with _ | x
  · rcases it with _ | ⟨dfn, rest⟩ <;>
      simp_all [Peekable.front, Peekable.peek, Peekable.next,
        Deserializer.get_value, MappingIter.get_value]
  · rcases x with _ | dfn <;>
      simp_all [Peekable.front, Peekable.peek, Peekable.next,
        Deserializer.get_value, MappingIter.get_value]

/-- C3 amended: when the current definition holds value text `v`, a
character decode succeeds with `c` exactly when `v` is the single character
`c` and that character occupies one UTF-8 byte; it fails with
expected-character in every other case — so value text of zero or several
characters fails as the claim states, but a single multi-byte character
also fails, because the code compares the byte length of the text to
one. -/
theorem C3_char_single_byte_only (d : Deserializer) (i ln : Nat) (k v : String)
    (h : Peekable.front d.mappings.defs = some (Define.valid i ln k v)) :
    (∀ c : Char,
      ((d.parse_char).1 = Except.ok c ↔ v.data = [c] ∧ c.utf8Size = 1))
    ∧ ((d.parse_char).1 = Except.error Error.expectedChar
        ↔ utf8Len v.data ≠ 1) := by
  obtain ⟨d1, hg⟩ := get_value_front d i ln k v h
  have hpc : d.parse_char
      = (if utf8Len v.data = 1 then
          match v.data.head? with
          | some c => (Except.ok c, d1)
          | none => (Except.error Error.expectedChar, d1)
        else (Except.error Error.expectedChar, d1)) := by
    rw [Deserializer.parse_char, Deserializer.parse_text, hg]
  by_cases hl : utf8Len v.data = 1
  · obtain ⟨c1, hc1, hs1⟩ := (utf8Len_one v.data).mp hl
    rw [hpc, if_pos hl, hc1]
    constructor
    · intro c
      simp only [List.head?, Option.some.injEq, hc1, List.cons.injEq,
        and_true, Except.ok.injEq]
      constructor
      · rintro rfl
        exact ⟨rfl, hs1⟩
      · rintro ⟨rfl, _⟩
        rfl
    · simp only [List.head?, hc1]
      simp [utf8Len, hs1]
  · rw [hpc, if_neg hl]
    constructor
    · intro c
      constructor
      · intro habs
        exact absurd habs (by simp)
      · rintro ⟨hdata, hsize⟩
        exact absurd ((utf8Len_one v.data).mpr ⟨c, hdata, hsize⟩) hl
    · simp [hl]

/-- C3 witness: on a stream whose current value text is the one-byte
character `a`, the character decode succeeds with `a`. -/
theorem C3_char_witness :
    Peekable.front (dOf ("a")).mappings.defs
      = some (Define.valid 0 1 ("key") ("a"))
    ∧ (((dOf ("a")).parse_char).1 = Except.ok ('a')
        ↔ (String.data ("a")) = ['a'] ∧ ('a').utf8Size = 1) :=
  ⟨rfl, (C3_char_single_byte_only (dOf ("a")) 0 1 ("key") ("a") rfl).1 ('a')⟩

/-- C4: a sequence pull through `next_element_seed` ends the sequence (with
`ok none`, no error) exactly when no definition at all can be peeked.  In
particular a pull never ends the sequence because the next definition sits
at a shallower or equal indentation level: whenever any definition is
present — whatever its indentation — the pull either decodes an element or
propagates an error, never the end-of-sequence result. -/
theorem C4_seq_end_iff_no_input (α : Type)
    (f : Deserializer → DeResult α × Deserializer) (d : Deserializer) :
    (next_element f d).1 = Except.ok none
      ↔ Peekable.front d.mappings.defs = none := by
  obtain ⟨⟨⟨pk, it⟩⟩⟩ := d
  rcases pk with _ | x
  · rcases it with _ | ⟨dfn, rest⟩
    · simp [next_element, Peekable.front, Peekable.peek,
        Deserializer.check_key, MappingIter.check_key]
    · rcases dfn with ⟨i, ln, k, v⟩ | ⟨e, ln⟩
      · rcases hf : f ⟨⟨⟨some (some (Define.valid i ln k v)), rest⟩⟩⟩ with ⟨r, d2⟩
        rcases r with a | e <;>
          simp_all [next_element, Peekable.front, Peekable.peek,
            Deserializer.check_key, MappingIter.check_key]
      · simp [next_element, Peekable.front, Peekable.peek,
          Deserializer.check_key, MappingIter.check_key]
  · rcases x with _ | dfn
    · simp [next_element, Peekable.front, Peekable.peek,
        Deserializer.check_key, MappingIter.check_key]
    · rcases dfn with ⟨i, ln, k, v⟩ | ⟨e, ln⟩
      · rcases hf : f ⟨⟨⟨some (some (Define.valid i ln k v)), it⟩⟩⟩ with ⟨r, d2⟩
        rcases r with a | e <;>
          simp_all [next_element, Peekable.front, Peekable.peek,
            Deserializer.check_key, MappingIter.check_key]
      · simp [next_element, Peekable.front, Peekable.peek,
          Deserializer.check_key, MappingIter.check_key]

/-- C5: when the definition at the front of the stream is invalid, every
cursor operation — `check_key`, `peek_key` and `get_value` — returns the
structured parse failure built from the original error descriptor and the
offending source line number; none of them skips the invalid definition
and produces a later result, and the error propagates to the caller, so
decoding stops there. -/
theorem C5_invalid_definition_surfaced (d : Deserializer) (e : String) (ln : Nat)
    (h : Peekable.front d.mappings.defs = some (Define.invalid e ln)) :
    (d.check_key).1 = Except.error (Error.failedParse (failMsg e ln))
    ∧ (d.peek_key).1 = Except.error (Error.failedParse (failMsg e ln))
    ∧ (d.get_value).1 = Except.error (Error.failedParse (failMsg e ln)) := by
  obtain ⟨⟨⟨pk, it⟩⟩⟩ := d
  rcases pk with _ | x
  · rcases it with _ | ⟨dfn, rest⟩ <;>
      simp_all [Peekable.front, Peekable.peek, Peekable.next,
        Deserializer.check_key, Deserializer.peek_key, Deserializer.get_value,
        MappingIter.check_key, MappingIter.peek_key, MappingIter.get_value]
  · rcases x with _ | dfn <;>
      simp_all [Peekable.front, Peekable.peek, Peekable.next,
        Deserializer.check_key, Deserializer.peek_key, Deserializer.get_value,
        MappingIter.check_key, MappingIter.peek_key, MappingIter.get_value]

/-- C5 witness: on a stream starting with an invalid definition at line 3,
all three cursor operations return the parse failure carrying its
descriptor and line number. -/
theorem C5_invalid_witness :
    Peekable.front (mkD [Define.invalid ("missing separator") 3]).mappings.defs
      = some (Define.invalid ("missing separator") 3)
    ∧ ((mkD [Define.invalid ("missing separator") 3]).check_key).1
        = Except.error (Error.failedParse (failMsg ("missing separator") 3))
    ∧ ((mkD [Define.invalid ("missing separator") 3]).peek_key).1
        = Except.error (Error.failedParse (failMsg ("missing separator") 3))
    ∧ ((mkD [Define.invalid ("missing separator") 3]).get_value).1
        = Except.error (Error.failedParse (failMsg ("missing separator") 3)) :=
  ⟨rfl, C5_invalid_definition_surfaced
    (mkD [Define.invalid ("missing separator") 3]) ("missing separator") 3 rfl⟩

/-- C7: when a peek succeeds with key `k`: peeking again returns the same
key and leaves the state fixed (idempotence); the peek leaves the
observable definition stream unchanged; the peek advanced the underlying
iterator by at most one step (the buffered item); and an immediately
following `get_value` consumes the very definition whose key was peeked,
returning that definition's value text. -/
theorem C7_peek_take_coherent (d : Deserializer) (k : String)
    (h : (d.peek_key).1 = Except.ok k) :
    (d.peek_key).2.peek_key = d.peek_key
    ∧ Peekable.toStream (d.peek_key).2.mappings.defs
        = Peekable.toStream d.mappings.defs
    ∧ d.mappings.defs.iter.length
        ≤ (d.peek_key).2.mappings.defs.iter.length + 1
    ∧ ∃ i ln v, Peekable.front d.mappings.defs = some (Define.valid i ln k v)
        ∧ (((d.peek_key).2.get_value).1 = Except.ok v) := by
  obtain ⟨⟨⟨pk, it⟩⟩⟩ := d
  rcases pk with _ | x
  · rcases it with _ | ⟨dfn, rest⟩
    · simp_all [Deserializer.peek_key, MappingIter.peek_key, Peekable.peek]
    · rcases dfn with ⟨i, ln, ky, v⟩ | ⟨e, ln⟩ <;>
        simp_all [Deserializer.peek_key, MappingIter.peek_key, Peekable.peek,
          Peekable.toStream, Peekable.front, Peekable.next,
          Deserializer.get_value, MappingIter.get_value]
  · rcases x with _ | dfn
    · simp_all [Deserializer.peek_key, MappingIter.peek_key, Peekable.peek]
    · rcases dfn with ⟨i, ln, ky, v⟩ | ⟨e, ln⟩ <;>
        simp_all [Deserializer.peek_key, MappingIter.peek_key, Peekable.peek,
          Peekable.toStream, Peekable.front, Peekable.next,
          Deserializer.get_value, MappingIter.get_value]

/-- C7 witness: on a one-definition stream with key `a`, the peek succeeds,
repeating it is idempotent, the observable stream is unchanged, and the
underlying iterator advanced by at most one step. -/
theorem C7_peek_take_witness :
    ((mkD [Define.valid 0 1 ("a") ("b")]).peek_key).1 = Except.ok ("a")
    ∧ ((mkD [Define.valid 0 1 ("a") ("b")]).peek_key).2.peek_key
        = (mkD [Define.valid 0 1 ("a") ("b")]).peek_key
    ∧ Peekable.toStream
        ((mkD [Define.valid 0 1 ("a") ("b")]).peek_key).2.mappings.defs
        = Peekable.toStream (mkD [Define.valid 0 1 ("a") ("b")]).mappings.defs
    ∧ (mkD [Define.valid 0 1 ("a") ("b")]).mappings.defs.iter.length
        ≤ ((mkD [Define.valid 0 1 ("a") ("b")]).peek_key).2.mappings.defs.iter.length
          + 1 :=
  ⟨rfl,
    (C7_peek_take_coherent (mkD [Define.valid 0 1 ("a") ("b")]) ("a") rfl).1,
    (C7_peek_take_coherent (mkD [Define.valid 0 1 ("a") ("b")]) ("a") rfl).2.1,
    (C7_peek_take_coherent (mkD [Define.valid 0 1 ("a") ("b")]) ("a") rfl).2.2.1⟩

/-- C8: when the current definition holds value text `v`, the boolean
decode (which consumes that definition) succeeds with `true` exactly when
`v` is the exact string `true`, succeeds with `false` exactly when `v` is
the exact string `false` (both case-sensitive, so the comparisons are
plain string equality), and fails with the expected-boolean error for
every other value text. -/
theorem C8_bool_exact (d : Deserializer) (i ln : Nat) (k v : String)
    (h : Peekable.front d.mappings.defs = some (Define.valid i ln k v)) :
    ((d.parse_bool).1 = Except.ok true ↔ v = "true")
    ∧ ((d.parse_bool).1 = Except.ok false ↔ v = "false")
    ∧ (v ≠ "true" → v ≠ "false" →
        (d.parse_bool).1 = Except.error Error.expectedBoolean) := by
  obtain ⟨⟨⟨pk, it⟩⟩⟩ := d
  rcases pk with _ | x
  · rcases it with _ | ⟨dfn, rest⟩
    · simp [Peekable.front, Peekable.peek] at h
    · simp only [Peekable.front, Peekable.peek, Option.some.injEq] at h
      subst h
      by_cases hv : v = "true" <;> by_cases hw : v = "false" <;>
        simp_all [Deserializer.parse_bool, Deserializer.get_value,
          MappingIter.get_value, Peekable.next]
  · rcases x with _ | dfn
    · simp [Peekable.front, Peekable.peek] at h
    · simp only [Peekable.front, Peekable.peek, Option.some.injEq] at h
      subst h
      by_cases hv : v = "true" <;> by_cases hw : v = "false" <;>
        simp_all [Deserializer.parse_bool, Deserializer.get_value,
          MappingIter.get_value, Peekable.next]

/-- C8 witness: on a stream whose current value text is `true`, the boolean
decode succeeds with `true` and does not yield `false`. -/
theorem C8_bool_witness :
    Peekable.front (dOf ("true")).mappings.defs
      = some (Define.valid 0 1 ("key") ("true"))
    ∧ (((dOf ("true")).parse_bool).1 = Except.ok true ↔ ("true") = "true")
    ∧ (((dOf ("true")).parse_bool).1 = Except.ok false ↔ ("true") = "false") :=
  ⟨rfl,
    (C8_bool_exact (dOf ("true")) 0 1 ("key") ("true") rfl).1,
    (C8_bool_exact (dOf ("true")) 0 1 ("key") ("true") rfl).2.1⟩

/-- C10: a successful identifier decode returns the current definition's
key by peeking only: the observable definition stream (and the definition a
peek observes) is unchanged, the peeked definition is the valid definition
carrying that key, and the immediately following value decode consumes the
value text of that same definition. -/
theorem C10_identifier_peeks_only (d : Deserializer) (k : String)
    (d1 : Deserializer)
    (h : d.deserialize_identifier = (Except.ok k, d1)) :
    Peekable.toStream d1.mappings.defs = Peekable.toStream d.mappings.defs
    ∧ Peekable.front d1.mappings.defs = Peekable.front d.mappings.defs
    ∧ ∃ i ln v, Peekable.front d.mappings.defs = some (Define.valid i ln k v)
        ∧ (d1.get_value).1 = Except.ok v := by
  obtain ⟨⟨⟨pk, it⟩⟩⟩ := d
  rcases pk with _ | x
  · rcases it with _ | ⟨dfn, rest⟩
    · simp_all [Deserializer.deserialize_identifier, Deserializer.peek_key,
        MappingIter.peek_key, Peekable.peek]
    · rcases dfn with ⟨i, ln, ky, v⟩ | ⟨e, ln⟩ <;>
        simp_all [Deserializer.deserialize_identifier, Deserializer.peek_key,
          MappingIter.peek_key, Peekable.peek, Peekable.front, Peekable.next,
          Peekable.toStream, Deserializer.get_value, MappingIter.get_value]
      obtain ⟨hk, hd⟩ := h
      subst hk
      subst hd
      simp [Deserializer.get_value, MappingIter.get_value, Peekable.next,
        Peekable.front, Peekable.peek, Peekable.toStream]
  · rcases x with _ | dfn
    · simp_all [Deserializer.deserialize_identifier, Deserializer.peek_key,
        MappingIter.peek_key, Peekable.peek]
    · rcases dfn with ⟨i, ln, ky, v⟩ | ⟨e, ln⟩ <;>
        simp_all [Deserializer.deserialize_identifier, Deserializer.peek_key,
          MappingIter.peek_key, Peekable.peek, Peekable.front, Peekable.next,
          Peekable.toStream, Deserializer.get_value, MappingIter.get_value]
      obtain ⟨hk, hd⟩ := h
      subst hk
      subst hd
      simp [Deserializer.get_value, MappingIter.get_value, Peekable.next,
        Peekable.front, Peekable.peek, Peekable.toStream]

/-- C10 witness: on a one-definition stream, the identifier decode returns
the key `key` while leaving the observable stream and its front
unchanged. -/
theorem C10_identifier_witness :
    (dOf ("x")).deserialize_identifier
      = (Except.ok ("key"),
          Deserializer.mk (MappingIter.mk (Peekable.mk
            (some (some (Define.valid 0 1 ("key") ("x")))) [])))
    ∧ Peekable.toStream (Deserializer.mk (MappingIter.mk (Peekable.mk
          (some (some (Define.valid 0 1 ("key") ("x")))) []))).mappings.defs
        = Peekable.toStream (dOf ("x")).mappings.defs
    ∧ Peekable.front (Deserializer.mk (MappingIter.mk (Peekable.mk
          (some (some (Define.valid 0 1 ("key") ("x")))) []))).mappings.defs
        = Peekable.front (dOf ("x")).mappings.defs :=
  ⟨rfl,
    (C10_identifier_peeks_only (dOf ("x")) ("key")
      (Deserializer.mk (MappingIter.mk (Peekable.mk
        (some (some (Define.valid 0 1 ("key") ("x")))) []))) rfl).1,
    (C10_identifier_peeks_only (dOf ("x")) ("key")
      (Deserializer.mk (MappingIter.mk (Peekable.mk
        (some (some (Define.valid 0 1 ("key") ("x")))) []))) rfl).2.1⟩
